import Mathlib

/-!
Verification development for the pin resolution/configuration subsystem of
`ports/nxp_lpc546/pin.c` (MicroPython LPC546xx port).

The C code is shallowly embedded:
* `pin_find` (the resolver) becomes a pure function from the process-wide
  registry state and an identifier to a result plus the debug trace it would
  print.
* `pin_obj_init_helper` (the configurator, after keyword-argument parsing)
  becomes a pure function producing the ordered list of hardware effects
  (clock enables and register writes) together with an optional error; the
  error field models the `nlr_raise` call sites, which abort execution at the
  point they occur, so the accumulated event list at that point is exactly
  the hardware state already touched.
-/

namespace PinLpc546

/-- One statically allocated pin descriptor (`pin_obj_t`): name, port index,
pin index within the port.  The GPIO register block and the af list are not
needed by the verified operations and are omitted. -/
structure pin_obj where
  name : String
  port : Nat
  pin  : Nat
deriving DecidableEq, Repr

/-- The MicroPython object values `pin_find` can encounter: the `none`
sentinel (`mp_const_none`), a pin descriptor object (type `pin_type`),
a string, or any other opaque object. -/
inductive mp_obj where
  | mp_none : mp_obj
  | pin (p : pin_obj) : mp_obj
  | str (s : String) : mp_obj
  | obj (k : Nat) : mp_obj
deriving DecidableEq, Repr

/-- The `MP_OBJ_IS_TYPE(o, &pin_type)` check. -/
def is_pin_type : mp_obj → Bool
  | .pin _ => true
  | _ => false

/-- Errors raised by `pin_find`: `ValueError("Pin.mapper didn't return a Pin
object")` and `ValueError("pin ... not a valid pin identifier")`. -/
inductive find_error where
  | invalidMapperResult : find_error
  | invalidIdentifier (o : mp_obj) : find_error
deriving DecidableEq, Repr

/-- Process-wide resolver registry (`MP_STATE_PORT(pin_class_mapper)`,
`MP_STATE_PORT(pin_class_map_dict)`, the two fixed pin catalogs and the
`pin_class_debug` flag).  `none` models `mp_const_none` for the mapper and
the dict.  The dict is an association list whose stored values may be the
C `NULL` (modelled by an inner `none`), matching the
`elem != NULL && elem->value != NULL` test. -/
structure pin_state where
  pin_class_mapper : Option (mp_obj → mp_obj)
  pin_class_map_dict : Option (List (mp_obj × Option mp_obj))
  board_pins : List (mp_obj × pin_obj)
  cpu_pins : List (mp_obj × pin_obj)
  pin_class_debug : Bool

/-- Debug trace entry, emitted only when `pin_class_debug` is set. -/
def dbg_msg (st : pin_state) (s : String) : List String :=
  if st.pin_class_debug then [s] else []

/-- Modelled from the spec: `pin_find_named_pin` (defined in the port's
`pin_named_pins.c`, not present under `src/`) looks the identifier up in a
fixed read-only catalog and returns the matching descriptor or nothing
("Look up `identifier` by name in the board-pins catalog; return on
match"). -/
def pin_find_named_pin (d : List (mp_obj × pin_obj)) (o : mp_obj) : Option pin_obj :=
  (d.find? (fun e => e.1 == o)).map (fun e => e.2)

/-- Modelled from the spec: `mp_map_lookup(map, key, MP_MAP_LOOKUP)` (core
MicroPython `py/map.c`, not present under `src/`) finds the entry stored
under an equal key ("look up `identifier` as a key; an exact found entry is
returned immediately"); an entry whose value slot is the C `NULL` does not
count as found, per the `elem->value != NULL` guard in `pin_find`. -/
def mp_map_lookup (d : List (mp_obj × Option mp_obj)) (k : mp_obj) : Option mp_obj :=
  match d.find? (fun e => e.1 == k) with
  | some e => e.2
  | none => none

/-- Strategies 4-6 of `pin_find`: board catalog, cpu catalog, failure. -/
def pin_find_tables (st : pin_state) (user_obj : mp_obj) :
    Except find_error mp_obj × List String :=
  match pin_find_named_pin st.board_pins user_obj with
  | some p => (.ok (.pin p), dbg_msg st "Pin.board maps")
  | none =>
    match pin_find_named_pin st.cpu_pins user_obj with
    | some p => (.ok (.pin p), dbg_msg st "Pin.cpu maps")
    | none => (.error (.invalidIdentifier user_obj), [])

/-- Strategy 3 of `pin_find` (the user override table), falling through to
the catalogs. -/
def pin_find_dict (st : pin_state) (user_obj : mp_obj) :
    Except find_error mp_obj × List String :=
  match st.pin_class_map_dict with
  | some d =>
    match mp_map_lookup d user_obj with
    | some v => (.ok v, dbg_msg st "Pin.map_dict maps")
    | none => pin_find_tables st user_obj
  | none => pin_find_tables st user_obj

/-- Function `pin_find` from `pin.c`: strategy order is (1) identity pass-through for
pin objects, (2) user mapper callback, (3) user override table, (4) board
catalog, (5) cpu catalog, else `ValueError`.  Returns the resolution result
paired with the debug trace. -/
def pin_find (st : pin_state) (user_obj : mp_obj) :
    Except find_error mp_obj × List String :=
  if is_pin_type user_obj then
    (.ok user_obj, dbg_msg st "Pin map passed pin")
  else
    match st.pin_class_mapper with
    | some mapper =>
      let r := mapper user_obj
      if r == .mp_none then
        pin_find_dict st user_obj
      else if is_pin_type r then
        (.ok r, dbg_msg st "Pin.mapper maps")
      else
        (.error .invalidMapperResult, [])
    | none => pin_find_dict st user_obj

/-! Configurator (`pin_obj_init_helper`). -/

/-- Modelled from the spec: the GPIO mode constants come from the port's
`pin.h`, which is not present under `src/`.  The spec fixes the enumerated
set; the source fixes that the open-drain selector is IOCON bit 11
("OD (bit 11) is encoded in args.mode") and that `GPIO_MODE_INPUT` is
distinct from the output modes.  The exact numeric values are otherwise
free; the claims proved below do not depend on them. -/
def GPIO_MODE_INPUT : Nat := 0x000

def GPIO_MODE_OUTPUT_PP : Nat := 0x001

def GPIO_MODE_OUTPUT_OD : Nat := 0x801

def GPIO_MODE_AF_PP : Nat := 0x002

def GPIO_MODE_AF_OD : Nat := 0x802

def GPIO_MODE_ANALOG : Nat := 0x003

/-- Modelled from the spec: IOCON pull-mode field encodings (port `pin.h` /
SDK, not under `src/`); the mode field occupies IOCON bits 4-5. -/
def IOCON_MODE_INACT : Nat := 0x00

def GPIO_PULLDOWN : Nat := 0x10

def GPIO_PULLUP : Nat := 0x20

def GPIO_REPEATER : Nat := 0x30

/-- Modelled from the spec: `IS_GPIO_MODE` (port `pin.h`, not under `src/`)
is membership in the enumerated GPIO mode set
\x7bINPUT, OUTPUT_PP, OUTPUT_OD, AF_PP, AF_OD, ANALOG\x7d. -/
def IS_GPIO_MODE (m : Nat) : Bool :=
  m == GPIO_MODE_INPUT || m == GPIO_MODE_OUTPUT_PP || m == GPIO_MODE_OUTPUT_OD ||
  m == GPIO_MODE_AF_PP || m == GPIO_MODE_AF_OD || m == GPIO_MODE_ANALOG

/-- Modelled from the spec: `IS_GPIO_PULL` (port `pin.h`, not under `src/`)
is membership in \x7bPULL_UP, PULL_DOWN, REPEATER, NONE\x7d. -/
def IS_GPIO_PULL (p : Nat) : Bool :=
  p == IOCON_MODE_INACT || p == GPIO_PULLDOWN || p == GPIO_PULLUP || p == GPIO_REPEATER

/-- Clock identifiers (`clock_ip_name_t`, external NXP SDK).  Only the
additive structure `kCLOCK_Gpio0 + port` / `kCLOCK_Gpio4 + port - 4` used by
`pin_obj_init_helper` matters to the claims; the base values stand in for
the SDK enum and are chosen so the two groups and `kCLOCK_Iocon` do not
collide for the 6 ports of this chip. -/
def kCLOCK_Iocon : Nat := 13

def kCLOCK_Gpio0 : Nat := 14

def kCLOCK_Gpio4 : Nat := 516

/-- One observable hardware effect of the configurator, in program order:
`CLOCK_EnableClock`, `IOCON_PinMuxSet`, `GPIO_WritePinOutput`,
`gpio->DIRSET[port] = mask`, `gpio->DIRCLR[port] = mask`. -/
inductive hw_event where
  | clock_enable (c : Nat) : hw_event
  | iocon_pin_mux_set (port pin word : Nat) : hw_event
  | gpio_write_pin_output (port pin : Nat) (v : Bool) : hw_event
  | dir_set (port mask : Nat) : hw_event
  | dir_clr (port mask : Nat) : hw_event
deriving DecidableEq, Repr

/-- Is the event a `CLOCK_EnableClock` call? -/
def is_clock_enable : hw_event → Bool
  | .clock_enable _ => true
  | _ => false

/-- The parsed keyword arguments of `init` (`pin_init_t`), with the defaults
of the `allowed_args` table: `pull = mp_const_none`, `af = 4`,
`value = MP_OBJ_NULL`, `alt = 0`, `inv = false`, `flt = false`. -/
structure pin_init_args where
  mode : Nat
  pull : Option Nat := none
  af   : Nat := 4
  val0 : Option Bool := none
  alt  : Nat := 0
  inv  : Bool := false
  flt  : Bool := false
deriving DecidableEq, Repr

/-- Errors raised by `pin_obj_init_helper`: `ValueError("invalid pin mode")`
and `ValueError("invalid pin pull")`. -/
inductive init_error where
  | invalidMode (m : Nat) : init_error
  | invalidPull (p : Nat) : init_error
deriving DecidableEq, Repr

/-- The C statement `uint pull = IOCON_MODE_INACT;
if (args.pull.u_obj != mp_const_none) pull = mp_obj_get_int(args.pull.u_obj);`. -/
def effective_pull (args : pin_init_args) : Nat :=
  match args.pull with
  | none => IOCON_MODE_INACT
  | some p => p

/-- C integer promotion of a `bool` operand. -/
def bit (b : Bool) : Nat := cond b 1 0

/-- Function `pin_obj_init_helper` from `pin.c`, after argument parsing: validate the
mode, compute the effective pull and validate it, then enable the IOCON
clock, write the packed mux/control word, and — only when `alt == 0` —
enable the port's GPIO bank clock and set the direction (clearing it for
`GPIO_MODE_INPUT`, otherwise optionally writing the initial value and then
setting it).  The result pairs the ordered hardware-event list with the
error raised, if any; `nlr_raise` aborts execution, so an error result
carries exactly the events already performed at the raise site (none — both
raises precede the first hardware call). -/
def pin_obj_init_helper (self : pin_obj) (args : pin_init_args) :
    List hw_event × Option init_error :=
  if ¬ IS_GPIO_MODE args.mode then
    ([], some (.invalidMode args.mode))
  else
    let pull := effective_pull args
    if ¬ IS_GPIO_PULL pull then
      ([], some (.invalidPull pull))
    else
      let word := args.alt ||| (args.mode &&& 0xFFF) ||| (1 <<< 8) ||| pull |||
        (bit args.inv) <<< 7 ||| (bit (! args.flt)) <<< 9
      let evs := [hw_event.clock_enable kCLOCK_Iocon,
                  hw_event.iocon_pin_mux_set self.port self.pin word]
      let evs := evs ++
        (if args.alt == 0 then
          hw_event.clock_enable
            (if self.port < 4 then kCLOCK_Gpio0 + self.port
             else kCLOCK_Gpio4 + self.port - 4) ::
          (if args.mode == GPIO_MODE_INPUT then
            [hw_event.dir_clr self.port (1 <<< self.pin)]
          else
            (match args.val0 with
             | some v => [hw_event.gpio_write_pin_output self.port self.pin v]
             | none => []) ++ [hw_event.dir_set self.port (1 <<< self.pin)])
         else [])
      (evs, none)

/-! Fall-through side conditions for the resolver order. -/

/-- Strategy 2 does not capture the identifier: no mapper is installed, or
the installed mapper returns the `none` sentinel on it. -/
def mapper_passes (st : pin_state) (x : mp_obj) : Prop :=
  st.pin_class_mapper = none ∨
  ∃ f, st.pin_class_mapper = some f ∧ f x = mp_obj.mp_none

/-- Strategy 3 does not capture the identifier: no override table is
installed, or its lookup misses. -/
def dict_passes (st : pin_state) (x : mp_obj) : Prop :=
  st.pin_class_map_dict = none ∨
  ∃ d, st.pin_class_map_dict = some d ∧ mp_map_lookup d x = none

/-- Debug-free result of strategies 4-6, used to show the trace flag cannot
influence resolution. -/
def pin_find_tables_res (board cpu : List (mp_obj × pin_obj)) (x : mp_obj) :
    Except find_error mp_obj :=
  match pin_find_named_pin board x with
  | some p => .ok (.pin p)
  | none =>
    match pin_find_named_pin cpu x with
    | some p => .ok (.pin p)
    | none => .error (.invalidIdentifier x)

/-- Debug-free result of strategy 3 onwards. -/
def pin_find_dict_res (dict : Option (List (mp_obj × Option mp_obj)))
    (board cpu : List (mp_obj × pin_obj)) (x : mp_obj) : Except find_error mp_obj :=
  match dict with
  | some d =>
    match mp_map_lookup d x with
    | some v => .ok v
    | none => pin_find_tables_res board cpu x
  | none => pin_find_tables_res board cpu x

/-- Debug-free result of the whole resolver. -/
def pin_find_res (mapper : Option (mp_obj → mp_obj))
    (dict : Option (List (mp_obj × Option mp_obj)))
    (board cpu : List (mp_obj × pin_obj)) (x : mp_obj) : Except find_error mp_obj :=
  if is_pin_type x then .ok x
  else
    match mapper with
    | some f =>
      if f x == .mp_none then pin_find_dict_res dict board cpu x
      else if is_pin_type (f x) then .ok (f x)
      else .error .invalidMapperResult
    | none => pin_find_dict_res dict board cpu x

/-- Witness fixtures: a mapper resolving only the name `"M"`; see also the
override table, catalogs and states below. -/
def mapper_w : mp_obj → mp_obj :=
  fun o => if o == mp_obj.str "M" then mp_obj.pin ⟨"A0", 0, 0⟩ else mp_obj.mp_none

/-- Witness override table: one entry shadowing `"M"` differently from the
mapper, one non-pin value, one pin value. -/
def dict_w : List (mp_obj × Option mp_obj) :=
  [(mp_obj.str "M", some (mp_obj.pin ⟨"B1", 1, 1⟩)),
   (mp_obj.str "D", some (mp_obj.str "weird")),
   (mp_obj.str "T", some (mp_obj.pin ⟨"C2", 2, 2⟩))]

/-- Witness board catalog. -/
def board_w : List (mp_obj × pin_obj) := [(mp_obj.str "X1", ⟨"P0_4", 0, 4⟩)]

/-- Witness cpu catalog. -/
def cpu_w : List (mp_obj × pin_obj) := [(mp_obj.str "P0_4", ⟨"P0_4", 0, 4⟩)]

/-- Witness state with everything installed. -/
def st_full : pin_state := ⟨some mapper_w, some dict_w, board_w, cpu_w, false⟩

/-- Witness state without a mapper. -/
def st_nomap : pin_state := ⟨none, some dict_w, board_w, cpu_w, false⟩

/-- Witness state with only the catalogs. -/
def st_tables : pin_state := ⟨none, none, board_w, cpu_w, false⟩

/-- Witness state with nothing installed and empty catalogs. -/
def st_empty : pin_state := ⟨none, none, [], [], false⟩

/-- The packed IOCON control word computed by `pin_obj_init_helper`. -/
def iocon_word (args : pin_init_args) : Nat :=
  args.alt ||| (args.mode &&& 0xFFF) ||| (1 <<< 8) ||| effective_pull args |||
    (bit args.inv) <<< 7 ||| (bit (! args.flt)) <<< 9

/-- The event list produced on the validated path, written out explicitly. -/
def init_events (self : pin_obj) (args : pin_init_args) : List hw_event :=
  [hw_event.clock_enable kCLOCK_Iocon,
   hw_event.iocon_pin_mux_set self.port self.pin (iocon_word args)] ++
  (if args.alt = 0 then
    hw_event.clock_enable
      (if self.port < 4 then kCLOCK_Gpio0 + self.port
       else kCLOCK_Gpio4 + self.port - 4) ::
    (if args.mode = GPIO_MODE_INPUT then
      [hw_event.dir_clr self.port (1 <<< self.pin)]
    else
      (match args.val0 with
       | some v => [hw_event.gpio_write_pin_output self.port self.pin v]
       | none => []) ++ [hw_event.dir_set self.port (1 <<< self.pin)])
   else [])

lemma pin_obj_init_helper_ok (self : pin_obj) (args : pin_init_args)
    (h1 : IS_GPIO_MODE args.mode = true)
    (h2 : IS_GPIO_PULL (effective_pull args) = true) :
    pin_obj_init_helper self args = (init_events self args, none) := by
  simp [pin_obj_init_helper, init_events, iocon_word, h1, h2]

lemma pin_obj_init_ok_valid (self : pin_obj) (args : pin_init_args)
    (h : (pin_obj_init_helper self args).2 = none) :
    IS_GPIO_MODE args.mode = true ∧ IS_GPIO_PULL (effective_pull args) = true := by
  by_cases h1 : IS_GPIO_MODE args.mode
  · by_cases h2 : IS_GPIO_PULL (effective_pull args)
    · exact ⟨h1, h2⟩
    · simp [pin_obj_init_helper, h1, h2] at h
  · simp [pin_obj_init_helper, h1] at h

lemma pin_obj_init_ok_events (self : pin_obj) (args : pin_init_args)
    (evs : List hw_event) (h : pin_obj_init_helper self args = (evs, none)) :
    evs = init_events self args := by
  obtain ⟨h1, h2⟩ := pin_obj_init_ok_valid self args (by rw [h])
  rw [pin_obj_init_helper_ok self args h1 h2] at h
  exact (Prod.mk.injEq _ _ _ _ ▸ h).1.symm

/-! Helper lemmas for the resolver. -/

lemma pin_find_tables_fst (st : pin_state) (x : mp_obj) :
    (pin_find_tables st x).1 = pin_find_tables_res st.board_pins st.cpu_pins x := by
  unfold pin_find_tables pin_find_tables_res
  cases hb : pin_find_named_pin st.board_pins x with
  | some p => rfl
  | none =>
    cases hc : pin_find_named_pin st.cpu_pins x with
    | some p => rfl
    | none => rfl

lemma pin_find_dict_fst (st : pin_state) (x : mp_obj) :
    (pin_find_dict st x).1 =
      pin_find_dict_res st.pin_class_map_dict st.board_pins st.cpu_pins x := by
  unfold pin_find_dict pin_find_dict_res
  cases hd : st.pin_class_map_dict with
  | none => exact pin_find_tables_fst st x
  | some d =>
    dsimp only
    cases hl : mp_map_lookup d x with
    | none => exact pin_find_tables_fst st x
    | some v => rfl

lemma pin_find_fst (st : pin_state) (x : mp_obj) :
    (pin_find st x).1 =
      pin_find_res st.pin_class_mapper st.pin_class_map_dict st.board_pins
        st.cpu_pins x := by
  unfold pin_find pin_find_res
  by_cases hx : is_pin_type x
  · simp [hx]
  · simp only [hx, if_neg, Bool.false_eq_true, ite_false]
    cases hm : st.pin_class_mapper with
    | none => exact pin_find_dict_fst st x
    | some f =>
      by_cases hn : f x == mp_obj.mp_none
      · simp only [hn, ite_true]
        exact pin_find_dict_fst st x
      · by_cases hp : is_pin_type (f x)
        · simp [hn, hp]
        · simp [hn, hp]

lemma pin_find_tables_ne_mapper_error (st : pin_state) (x : mp_obj) :
    (pin_find_tables st x).1 ≠ Except.error find_error.invalidMapperResult := by
  unfold pin_find_tables
  cases hb : pin_find_named_pin st.board_pins x with
  | some p => simp [dbg_msg]
  | none =>
    cases hc : pin_find_named_pin st.cpu_pins x with
    | some p => simp [dbg_msg]
    | none => simp

lemma pin_find_dict_ne_mapper_error (st : pin_state) (x : mp_obj) :
    (pin_find_dict st x).1 ≠ Except.error find_error.invalidMapperResult := by
  unfold pin_find_dict
  cases hd : st.pin_class_map_dict with
  | none => exact pin_find_tables_ne_mapper_error st x
  | some d =>
    dsimp only
    cases hl : mp_map_lookup d x with
    | none => exact pin_find_tables_ne_mapper_error st x
    | some v => simp [dbg_msg]

lemma pin_find_mapper_passes_eq (st : pin_state) (x : mp_obj)
    (hx : is_pin_type x = false) (hm : mapper_passes st x) :
    pin_find st x = pin_find_dict st x := by
  unfold pin_find
  rcases hm with hm | ⟨f, hf, hfx⟩
  · rw [hm]
    simp [hx]
  · rw [hf]
    simp [hx, hfx]

lemma pin_find_dict_passes_eq (st : pin_state) (x : mp_obj)
    (hd : dict_passes st x) :
    pin_find_dict st x = pin_find_tables st x := by
  unfold pin_find_dict
  rcases hd with hd | ⟨d, hd, hl⟩
  · rw [hd]
  · rw [hd]
    dsimp only
    rw [hl]

/-! Claim theorems for the configurator. -/

/-- C2: `pin_obj_init_helper` validates before applying: a mode outside the
enumerated GPIO mode set fails with `InvalidMode`, and an effective pull
(defaulting to no-pull when omitted) outside
\x7bPULL_UP, PULL_DOWN, REPEATER, NONE\x7d fails with `InvalidPull`; in both
failure cases the hardware-event list is empty — no clock enable and no
register write is performed. -/
theorem pin_obj_init_validates (self : pin_obj) (args : pin_init_args) :
    (IS_GPIO_MODE args.mode = false →
       pin_obj_init_helper self args = ([], some (.invalidMode args.mode))) ∧
    (IS_GPIO_MODE args.mode = true → IS_GPIO_PULL (effective_pull args) = false →
       pin_obj_init_helper self args = ([], some (.invalidPull (effective_pull args)))) := by
  constructor
  · intro h
    simp [pin_obj_init_helper, h]
  · intro h1 h2
    simp [pin_obj_init_helper, h1, h2]

/-- Witness for C2: mode 7 is rejected as `InvalidMode` with no hardware
events; pull 5 (with the valid mode `GPIO_MODE_INPUT`) is rejected as
`InvalidPull` with no hardware events. -/
theorem pin_obj_init_validates_witness :
    pin_obj_init_helper ⟨"P0_0", 0, 0⟩ ⟨7, none, 4, none, 0, false, false⟩ =
      ([], some (.invalidMode 7)) ∧
    pin_obj_init_helper ⟨"P0_0", 0, 0⟩ ⟨0, some 5, 4, none, 0, false, false⟩ =
      ([], some (.invalidPull 5)) :=
  ⟨(pin_obj_init_validates ⟨"P0_0", 0, 0⟩ ⟨7, none, 4, none, 0, false, false⟩).1 rfl,
   (pin_obj_init_validates ⟨"P0_0", 0, 0⟩ ⟨0, some 5, 4, none, 0, false, false⟩).2 rfl rfl⟩

/-- C3: on every validated configure call the packed control word written to
the IOCON mux/control register is exactly
`alt ||| (mode &&& 0xFFF) ||| (1 <<< 8) ||| pull ||| inv <<< 7 ||| (!flt) <<< 9`,
and this write is the second hardware event, after the IOCON clock enable
and before any GPIO direction step (which can only occur in the tail). -/
theorem pin_obj_init_iocon_word (self : pin_obj) (args : pin_init_args)
    (evs : List hw_event) (h : pin_obj_init_helper self args = (evs, none)) :
    ∃ tail, evs = hw_event.clock_enable kCLOCK_Iocon ::
      hw_event.iocon_pin_mux_set self.port self.pin
        (args.alt ||| (args.mode &&& 0xFFF) ||| (1 <<< 8) ||| effective_pull args |||
         (bit args.inv) <<< 7 ||| (bit (! args.flt)) <<< 9) :: tail := by
  rw [pin_obj_init_ok_events self args evs h]
  exact ⟨_, rfl⟩

/-- Witness for C3: a plain push-pull output on P0_0 packs
`1 ||| 256 ||| 512 = 769` and writes it right after the IOCON clock
enable. -/
theorem pin_obj_init_iocon_word_witness :
    ∃ tail, [hw_event.clock_enable 13, hw_event.iocon_pin_mux_set 0 0 769,
        hw_event.clock_enable 14, hw_event.dir_set 0 1] =
      hw_event.clock_enable kCLOCK_Iocon :: hw_event.iocon_pin_mux_set 0 0 769 :: tail :=
  pin_obj_init_iocon_word ⟨"P0_0", 0, 0⟩ ⟨GPIO_MODE_OUTPUT_PP, none, 4, none, 0, false, false⟩
    [hw_event.clock_enable 13, hw_event.iocon_pin_mux_set 0 0 769,
     hw_event.clock_enable 14, hw_event.dir_set 0 1] rfl

/-- C4: on the GPIO path (alternate-function index 0) of a validated call:
INPUT mode writes the pin bit to the port's direction-clear register; any
other mode with an explicit initial value writes that level to the pin
strictly before the direction-set write; without an initial value only the
direction-set write occurs.  (`drop 3` skips the IOCON clock, the mux write
and the GPIO bank clock, so these are the final events.) -/
theorem pin_obj_init_gpio_path (self : pin_obj) (args : pin_init_args)
    (evs : List hw_event) (h : pin_obj_init_helper self args = (evs, none))
    (halt : args.alt = 0) :
    (args.mode = GPIO_MODE_INPUT →
       evs.drop 3 = [hw_event.dir_clr self.port (1 <<< self.pin)]) ∧
    (args.mode ≠ GPIO_MODE_INPUT →
       (∀ v, args.val0 = some v →
          evs.drop 3 = [hw_event.gpio_write_pin_output self.port self.pin v,
            hw_event.dir_set self.port (1 <<< self.pin)]) ∧
       (args.val0 = none →
          evs.drop 3 = [hw_event.dir_set self.port (1 <<< self.pin)])) := by
  rw [pin_obj_init_ok_events self args evs h]
  refine ⟨fun hm => ?_, fun hm => ⟨fun v hv => ?_, fun hv => ?_⟩⟩
  · simp [init_events, halt, hm]
  · simp [init_events, halt, hm, hv]
  · simp [init_events, halt, hm, hv]

/-- Witness for C4: configuring P0_0 as push-pull output with initial value
`true` emits the output-level write strictly before the direction-set
write. -/
theorem pin_obj_init_gpio_path_witness :
    List.drop 3 [hw_event.clock_enable 13, hw_event.iocon_pin_mux_set 0 0 769,
        hw_event.clock_enable 14, hw_event.gpio_write_pin_output 0 0 true,
        hw_event.dir_set 0 1] =
      [hw_event.gpio_write_pin_output 0 0 true, hw_event.dir_set 0 1] :=
  ((pin_obj_init_gpio_path ⟨"P0_0", 0, 0⟩
      ⟨GPIO_MODE_OUTPUT_PP, none, 4, some true, 0, false, false⟩
      [hw_event.clock_enable 13, hw_event.iocon_pin_mux_set 0 0 769,
       hw_event.clock_enable 14, hw_event.gpio_write_pin_output 0 0 true,
       hw_event.dir_set 0 1] rfl rfl).2 (by decide)).1 true rfl

/-- C5: on a validated call with a non-zero alternate-function index the
GPIO steps are skipped entirely: the complete hardware-event list is the
IOCON clock enable followed by the single mux/control write — no GPIO bank
clock, no direction-set/clear, no output write. -/
theorem pin_obj_init_alt_skips_gpio (self : pin_obj) (args : pin_init_args)
    (evs : List hw_event) (h : pin_obj_init_helper self args = (evs, none))
    (halt : args.alt ≠ 0) :
    evs = [hw_event.clock_enable kCLOCK_Iocon,
      hw_event.iocon_pin_mux_set self.port self.pin (iocon_word args)] := by
  rw [pin_obj_init_ok_events self args evs h]
  simp [init_events, halt]

/-- Witness for C5: configuring P0_0 with `alt = 2` (alternate push-pull)
produces exactly the IOCON clock enable and the mux write. -/
theorem pin_obj_init_alt_skips_gpio_witness :
    ([hw_event.clock_enable 13, hw_event.iocon_pin_mux_set 0 0 770] : List hw_event) =
      [hw_event.clock_enable kCLOCK_Iocon,
       hw_event.iocon_pin_mux_set 0 0
         (iocon_word ⟨GPIO_MODE_AF_PP, none, 4, none, 2, false, false⟩)] :=
  pin_obj_init_alt_skips_gpio ⟨"P0_0", 0, 0⟩
    ⟨GPIO_MODE_AF_PP, none, 4, none, 2, false, false⟩
    [hw_event.clock_enable 13, hw_event.iocon_pin_mux_set 0 0 770] rfl (by decide)

/-- C7: on the GPIO path of a validated call exactly one GPIO bank clock is
enabled (the clock enables are precisely the IOCON one and the bank one, in
that order, as the first and third events), and its identifier is
`kCLOCK_Gpio0 + port` for `port < 4` and `kCLOCK_Gpio4 + port - 4`
otherwise. -/
theorem pin_obj_init_gpio_clock (self : pin_obj) (args : pin_init_args)
    (evs : List hw_event) (h : pin_obj_init_helper self args = (evs, none))
    (halt : args.alt = 0) :
    evs.filter is_clock_enable = [hw_event.clock_enable kCLOCK_Iocon,
      hw_event.clock_enable (if self.port < 4 then kCLOCK_Gpio0 + self.port
        else kCLOCK_Gpio4 + self.port - 4)] ∧
    ∃ tail, evs = [hw_event.clock_enable kCLOCK_Iocon,
      hw_event.iocon_pin_mux_set self.port self.pin (iocon_word args),
      hw_event.clock_enable (if self.port < 4 then kCLOCK_Gpio0 + self.port
        else kCLOCK_Gpio4 + self.port - 4)] ++ tail := by
  rw [pin_obj_init_ok_events self args evs h]
  constructor
  · by_cases hm : args.mode = GPIO_MODE_INPUT <;> cases hv : args.val0 <;>
      simp [init_events, halt, hm, hv, is_clock_enable]
  · exact ⟨(if args.mode = GPIO_MODE_INPUT then
        [hw_event.dir_clr self.port (1 <<< self.pin)]
      else
        (match args.val0 with
         | some v => [hw_event.gpio_write_pin_output self.port self.pin v]
         | none => []) ++ [hw_event.dir_set self.port (1 <<< self.pin)]),
      by simp [init_events, halt]⟩

/-- Witness for C7: port 0 (below the threshold) enables bank clock
`kCLOCK_Gpio0 + 0 = 14`; port 5 (at or above it) enables
`kCLOCK_Gpio4 + 5 - 4 = 517`. -/
theorem pin_obj_init_gpio_clock_witness :
    List.filter is_clock_enable [hw_event.clock_enable 13,
        hw_event.iocon_pin_mux_set 0 0 769, hw_event.clock_enable 14,
        hw_event.dir_set 0 1] =
      [hw_event.clock_enable kCLOCK_Iocon, hw_event.clock_enable 14] ∧
    List.filter is_clock_enable [hw_event.clock_enable 13,
        hw_event.iocon_pin_mux_set 5 1 769, hw_event.clock_enable 517,
        hw_event.dir_set 5 2] =
      [hw_event.clock_enable kCLOCK_Iocon, hw_event.clock_enable 517] :=
  ⟨(pin_obj_init_gpio_clock ⟨"P0_0", 0, 0⟩
      ⟨GPIO_MODE_OUTPUT_PP, none, 4, none, 0, false, false⟩
      [hw_event.clock_enable 13, hw_event.iocon_pin_mux_set 0 0 769,
       hw_event.clock_enable 14, hw_event.dir_set 0 1] rfl rfl).1,
   (pin_obj_init_gpio_clock ⟨"P5_1", 5, 1⟩
      ⟨GPIO_MODE_OUTPUT_PP, none, 4, none, 0, false, false⟩
      [hw_event.clock_enable 13, hw_event.iocon_pin_mux_set 5 1 769,
       hw_event.clock_enable 517, hw_event.dir_set 5 2] rfl rfl).1⟩

/-! Claim theorems for the resolver. -/

/-- C1: `pin_find` applies its strategies in the fixed order pin-identity,
mapper, override table, board catalog, cpu catalog, with the first match
winning: a pin object is returned unchanged whatever else is installed; an
installed mapper returning a pin wins regardless of the override table and
catalogs; when the mapper passes, an override-table hit wins regardless of
the catalogs; then a board hit, then a cpu hit; and when nothing matches
the result is `InvalidIdentifier`. -/
theorem pin_find_strategy_order :
    (∀ (st : pin_state) (p : pin_obj),
       (pin_find st (.pin p)).1 = .ok (.pin p)) ∧
    (∀ (st : pin_state) (x : mp_obj) (f : mp_obj → mp_obj),
       is_pin_type x = false → st.pin_class_mapper = some f →
       is_pin_type (f x) = true → (pin_find st x).1 = .ok (f x)) ∧
    (∀ (st : pin_state) (x : mp_obj) (d : List (mp_obj × Option mp_obj)) (v : mp_obj),
       is_pin_type x = false → mapper_passes st x →
       st.pin_class_map_dict = some d → mp_map_lookup d x = some v →
       (pin_find st x).1 = .ok v) ∧
    (∀ (st : pin_state) (x : mp_obj) (p : pin_obj),
       is_pin_type x = false → mapper_passes st x → dict_passes st x →
       pin_find_named_pin st.board_pins x = some p →
       (pin_find st x).1 = .ok (.pin p)) ∧
    (∀ (st : pin_state) (x : mp_obj) (p : pin_obj),
       is_pin_type x = false → mapper_passes st x → dict_passes st x →
       pin_find_named_pin st.board_pins x = none →
       pin_find_named_pin st.cpu_pins x = some p →
       (pin_find st x).1 = .ok (.pin p)) ∧
    (∀ (st : pin_state) (x : mp_obj),
       is_pin_type x = false → mapper_passes st x → dict_passes st x →
       pin_find_named_pin st.board_pins x = none →
       pin_find_named_pin st.cpu_pins x = none →
       (pin_find st x).1 = .error (.invalidIdentifier x)) := by
  refine ⟨?_, ?_, ?_, ?_, ?_, ?_⟩
  · intro st p
    simp [pin_find, is_pin_type]
  · intro st x f hx hm hp
    unfold pin_find
    rw [hm]
    have hne : (f x == mp_obj.mp_none) = false := by
      cases hfx : f x <;> simp_all [is_pin_type]
    simp [hx, hne, hp]
  · intro st x d v hx hm hd hl
    rw [pin_find_mapper_passes_eq st x hx hm]
    unfold pin_find_dict
    rw [hd]
    dsimp only
    rw [hl]
  · intro st x p hx hm hd hb
    rw [pin_find_mapper_passes_eq st x hx hm, pin_find_dict_passes_eq st x hd]
    unfold pin_find_tables
    rw [hb]
  · intro st x p hx hm hd hb hc
    rw [pin_find_mapper_passes_eq st x hx hm, pin_find_dict_passes_eq st x hd]
    unfold pin_find_tables
    rw [hb]
    dsimp only
    rw [hc]
  · intro st x hx hm hd hb hc
    rw [pin_find_mapper_passes_eq st x hx hm, pin_find_dict_passes_eq st x hd]
    unfold pin_find_tables
    rw [hb]
    dsimp only
    rw [hc]

/-- Witness for C1: with everything installed, a pin object passes through
unchanged; the mapper's answer for `"M"` beats the override table's
different entry for `"M"`; with no mapper the table entry for `"T"` wins;
with only catalogs `"X1"` resolves via the board table and `"P0_4"` via the
cpu table; and with nothing installed `"nope"` fails as an invalid
identifier. -/
theorem pin_find_strategy_order_witness :
    (pin_find st_full (.pin ⟨"Z9", 2, 3⟩)).1 = .ok (.pin ⟨"Z9", 2, 3⟩) ∧
    (pin_find st_full (.str "M")).1 = .ok (.pin ⟨"A0", 0, 0⟩) ∧
    (pin_find st_nomap (.str "T")).1 = .ok (.pin ⟨"C2", 2, 2⟩) ∧
    (pin_find st_tables (.str "X1")).1 = .ok (.pin ⟨"P0_4", 0, 4⟩) ∧
    (pin_find st_tables (.str "P0_4")).1 = .ok (.pin ⟨"P0_4", 0, 4⟩) ∧
    (pin_find st_empty (.str "nope")).1 = .error (.invalidIdentifier (.str "nope")) :=
  ⟨pin_find_strategy_order.1 st_full ⟨"Z9", 2, 3⟩,
   pin_find_strategy_order.2.1 st_full (.str "M") mapper_w rfl rfl rfl,
   pin_find_strategy_order.2.2.1 st_nomap (.str "T") dict_w (mp_obj.pin ⟨"C2", 2, 2⟩)
     rfl (Or.inl rfl) rfl rfl,
   pin_find_strategy_order.2.2.2.1 st_tables (.str "X1") ⟨"P0_4", 0, 4⟩
     rfl (Or.inl rfl) (Or.inl rfl) rfl,
   pin_find_strategy_order.2.2.2.2.1 st_tables (.str "P0_4") ⟨"P0_4", 0, 4⟩
     rfl (Or.inl rfl) (Or.inl rfl) rfl rfl,
   pin_find_strategy_order.2.2.2.2.2 st_empty (.str "nope")
     rfl (Or.inl rfl) (Or.inl rfl) rfl rfl⟩

/-- C6: an installed mapper is invoked with the identifier; a non-none
result that is not a pin object fails with `InvalidMapperResult`; a none
result falls through to the override table / board / cpu lookup for the
same identifier, and the overall result is then never
`InvalidMapperResult`. -/
theorem pin_find_mapper_contract :
    (∀ (st : pin_state) (x : mp_obj) (f : mp_obj → mp_obj),
       is_pin_type x = false → st.pin_class_mapper = some f →
       f x ≠ mp_obj.mp_none → is_pin_type (f x) = false →
       (pin_find st x).1 = .error .invalidMapperResult) ∧
    (∀ (st : pin_state) (x : mp_obj) (f : mp_obj → mp_obj),
       is_pin_type x = false → st.pin_class_mapper = some f →
       f x = mp_obj.mp_none →
       (pin_find st x).1 = (pin_find_dict st x).1 ∧
       (pin_find st x).1 ≠ .error .invalidMapperResult) := by
  constructor
  · intro st x f hx hm hne hp
    unfold pin_find
    rw [hm]
    have hne' : (f x == mp_obj.mp_none) = false := by
      simpa using hne
    simp [hx, hne', hp]
  · intro st x f hx hm hfx
    have he : pin_find st x = pin_find_dict st x :=
      pin_find_mapper_passes_eq st x hx (Or.inr ⟨f, hm, hfx⟩)
    rw [he]
    exact ⟨rfl, pin_find_dict_ne_mapper_error st x⟩

/-- Witness for C6: a mapper answering a string for every identifier makes
resolution fail with `InvalidMapperResult`, while the fixture mapper
answering none for `"X1"` falls through and resolves `"X1"` via the board
catalog without that error. -/
theorem pin_find_mapper_contract_witness :
    (pin_find ⟨some (fun _ => mp_obj.str "bad"), none, [], [], false⟩ (.str "q")).1 =
      .error .invalidMapperResult ∧
    ((pin_find st_full (.str "X1")).1 = (pin_find_dict st_full (.str "X1")).1 ∧
     (pin_find st_full (.str "X1")).1 ≠ .error .invalidMapperResult) :=
  ⟨pin_find_mapper_contract.1 ⟨some (fun _ => mp_obj.str "bad"), none, [], [], false⟩
     (.str "q") (fun _ => mp_obj.str "bad") rfl rfl (by decide) rfl,
   pin_find_mapper_contract.2 st_full (.str "X1") mapper_w rfl rfl rfl⟩

/-- C8: the global debug-trace flag has no behavioral effect on resolution:
two states differing only in `pin_class_debug` produce the same resolution
result (the same descriptor or the same error) for every identifier; the
flag influences only the emitted trace. -/
theorem pin_find_debug_independent (m : Option (mp_obj → mp_obj))
    (d : Option (List (mp_obj × Option mp_obj)))
    (b c : List (mp_obj × pin_obj)) (b1 b2 : Bool) (x : mp_obj) :
    (pin_find ⟨m, d, b, c, b1⟩ x).1 = (pin_find ⟨m, d, b, c, b2⟩ x).1 := by
  rw [pin_find_fst, pin_find_fst]

/-- C10: override-table hits are never type-checked — with the table
installed, no mapper, and a found entry with a non-null stored value,
`pin_find` returns the stored value as the resolution result even when it
is not a pin object, raising no error. -/
theorem pin_find_dict_no_typecheck (st : pin_state) (x : mp_obj)
    (d : List (mp_obj × Option mp_obj)) (v : mp_obj)
    (hx : is_pin_type x = false) (hm : st.pin_class_mapper = none)
    (hd : st.pin_class_map_dict = some d) (hl : mp_map_lookup d x = some v) :
    (pin_find st x).1 = .ok v := by
  rw [pin_find_mapper_passes_eq st x hx (Or.inl hm)]
  unfold pin_find_dict
  rw [hd]
  dsimp only
  rw [hl]

/-- Witness for C10: the table entry for `"D"` stores the plain string
`"weird"`; resolution returns it as the result, with no error. -/
theorem pin_find_dict_no_typecheck_witness :
    (pin_find st_nomap (.str "D")).1 = .ok (.str "weird") :=
  pin_find_dict_no_typecheck st_nomap (.str "D") dict_w (.str "weird") rfl rfl rfl rfl

/-- C9: the `af` argument (parsed with default 4) is dead after parsing —
two configure calls differing only in `af` perform identical validation and
produce identical hardware-event lists and errors; only `alt` selects the
alternate-function index. -/
theorem pin_obj_init_af_unused (self : pin_obj) (m : Nat) (p : Option Nat)
    (a1 a2 : Nat) (v : Option Bool) (alt : Nat) (i f : Bool) :
    pin_obj_init_helper self ⟨m, p, a1, v, alt, i, f⟩ =
      pin_obj_init_helper self ⟨m, p, a2, v, alt, i, f⟩ := rfl

end PinLpc546
